import Mathlib

/-!
Shallow embedding of the L'Oréal chatbot front-end (`src/script.js`).

Strings from the JavaScript side are modelled as `List Char` (`Str`), so
that token-level reasoning (prefix / infix / suffix of the greeting
lexicon, trimming, lowercasing) can use Mathlib's list machinery.
JavaScript `undefined`/`null` field values are both modelled as
`Option.none`; the JSON (de)serialisation round trip through
`localStorage` is modelled as the identity on the typed values, which is
faithful for records whose fields are strings or absent.

Only ASCII case folding is modelled (`Char.toLower`), matching every word
of the static lexicons in the source.
-/

/-- JavaScript strings, as lists of characters. -/
abbrev Str := List Char

/-- Coerce a Lean string literal to the `Str` model. -/
def str (s : String) : Str := s.toList

/-- JavaScript whitespace characters relevant to `trim` / `\s` (ASCII part). -/
def isWs (c : Char) : Bool := c = ' ' || c = '\t' || c = '\n' || c = '\r'

/-- Model of `String.prototype.trim`: drop whitespace at both ends. -/
def jsTrim (t : Str) : Str :=
  ((t.dropWhile isWs).reverse.dropWhile isWs).reverse

/-- Model of `String.prototype.toLowerCase` (ASCII). -/
def lowerStr (t : Str) : Str := t.map Char.toLower

/-- A message object as built by `script.js`.  Every field is optional
because restored snapshots may lack any of them (`restoreConversation`
copies `m.role` / `m.content` unchecked) and the error-path push at line
449 omits `time`. -/
structure Message where
  role : Option Str
  content : Option Str
  time : Option Str
deriving DecidableEq, Repr

/-- The three `localStorage` keys the script uses, with parsed values.
`none` models an absent key. -/
structure Storage where
  loreal_messages : Option (List Message)
  loreal_pastQuestions : Option (List Str)
  loreal_userName : Option Str
deriving DecidableEq, Repr

/-- The module-level mutable state of `script.js`: the `messages` array,
the `userName` variable, the `pastQuestions` array, plus the browser
storage. -/
structure ChatState where
  messages : List Message
  userName : Option Str
  pastQuestions : List Str
  storage : Storage
deriving DecidableEq, Repr

/-- The system instruction placed at index 0 of `messages` (lines 20-26). -/
def systemMessage : Message :=
  { role := some (str "system")
  , content := some (str "You are L'Oréal's Smart Product Advisor. Answer questions only about L'Oréal products, cosmetics, beauty, skincare, haircare, and fragrances. If a user's query is unrelated to these topics, politely refuse and say you can't help with that topic. Always respond kindly to greetings (for example: hello, hi, bonjour) — greet the user and invite them to ask about L'Oréal products or routines.")
  , time := none }

/-- Empty browser storage. -/
def emptyStorage : Storage :=
  { loreal_messages := none, loreal_pastQuestions := none, loreal_userName := none }

/-- The state right after module initialisation (lines 20-30), before
`restoreConversation()` runs, over a given starting storage. -/
def initStateWith (st : Storage) : ChatState :=
  { messages := [systemMessage], userName := none, pastQuestions := [], storage := st }

/-- Initial state with empty storage. -/
def initState : ChatState := initStateWith emptyStorage

/-- Model of `messages.push(m)`. -/
def pushMessage (m : Message) (s : ChatState) : ChatState :=
  { s with messages := s.messages ++ [m] }

/-- Model of `saveConversation()` (lines 36-45): writes `messages.slice(1)` under
`loreal_messages` and the question log under `loreal_pastQuestions`. -/
def saveConversation (s : ChatState) : ChatState :=
  { s with storage :=
      { s.storage with
          loreal_messages := some (s.messages.drop 1)
        , loreal_pastQuestions := some s.pastQuestions } }

/-- Model of `m.time || null` in `restoreConversation`: a falsy time (absent or the
empty string) becomes `null`. -/
def normTime (t : Option Str) : Option Str :=
  match t with
  | none => none
  | some u => if u = [] then none else some u

/-- The shallow copy `{ role: m.role, content: m.content, time: m.time || null }`
pushed for each restored entry (line 57).  No validation is performed. -/
def restoreEntry (m : Message) : Message :=
  { role := m.role, content := m.content, time := normTime m.time }

/-- Model of `restoreConversation()` (lines 47-78).  Returns the new state and the
boolean result.  An absent or empty `loreal_messages` value returns
`false` without touching the state; otherwise every entry is appended
after the system prompt and the past questions are appended when present. -/
def restoreConversation (s : ChatState) : ChatState × Bool :=
  match s.storage.loreal_messages with
  | none => (s, false)
  | some arr =>
    if arr = [] then (s, false)
    else
      let s1 := { s with messages := s.messages ++ arr.map restoreEntry }
      let s2 := { s1 with pastQuestions := s1.pastQuestions ++
          (match s1.storage.loreal_pastQuestions with
           | some pqa => pqa
           | none => []) }
      (s2, true)

/-- Model of `setUserName(name)` (lines 225-234): a falsy argument resets the name
to `null` and removes the storage key; otherwise the trimmed name is
stored, except that a name trimming to the empty string is kept in the
variable but removed from storage (`if (userName)` is false on `""`). -/
def setUserName (name : Option Str) (s : ChatState) : ChatState :=
  let un : Option Str :=
    match name with
    | none => none
    | some n => if n = [] then none else some (jsTrim n)
  let persist : Bool :=
    match un with
    | some u => u ≠ []
    | none => false
  { s with userName := un
         , storage := { s.storage with
             loreal_userName := if persist then un else none } }

/-- The `clearConvBtn` click handler (lines 253-277): remove the two
conversation keys, truncate `messages` to its first element (when
non-empty), empty `pastQuestions`, and `setUserName(null)`. -/
def resetSession (s : ChatState) : ChatState :=
  let s1 := { s with storage :=
      { s.storage with loreal_messages := none, loreal_pastQuestions := none } }
  let s2 :=
    if h : s1.messages ≠ [] then
      { s1 with messages := [s1.messages.head h] }
    else s1
  let s3 := { s2 with pastQuestions := [] }
  setUserName none s3

/-- The worker URL returned by `getWorkerUrl()` (lines 9-17): a fixed
constant, independent of any configuration. -/
def getWorkerUrl : Str := str "https://lorealchatbot.dilyosov.workers.dev/"

/-- The domain keyword lexicon of `isRelatedQuery` (lines 166-194). -/
def relatedKeywords : List Str :=
  [ str "loreal", str "l'oréal", str "loreál", str "makeup", str "beauty"
  , str "skincare", str "skin", str "hair", str "haircare", str "fragrance"
  , str "perfume", str "cosmetic", str "product", str "routine", str "serum"
  , str "moisturizer", str "foundation", str "mascara", str "shampoo"
  , str "conditioner", str "styling", str "color", str "cream", str "cleanser"
  , str "toner", str "sunscreen", str "spf" ]

/-- Model of `isRelatedQuery(text)` (lines 163-197): some keyword is a substring of
the lowercased text. -/
def isRelatedQuery (text : Str) : Bool :=
  if text = [] then false
  else
    let t := lowerStr text
    relatedKeywords.any fun k => decide (k <:+: t)

/-- The greeting lexicon of `isGreeting` (lines 205-214). -/
def greetings : List Str :=
  [ str "hi", str "hello", str "hey", str "bonjour", str "good morning"
  , str "good afternoon", str "good evening", str "greetings" ]

/-- Model of `isGreeting(text)` (lines 202-222): some lexicon word `g` satisfies
`t === g || t.startsWith(g + " ") || t.includes(" " + g + " ") ||
t.endsWith(" " + g)` on the lowercased text `t`. -/
def isGreeting (text : Str) : Bool :=
  if text = [] then false
  else
    let t := lowerStr text
    greetings.any fun g =>
      decide (t = g) || decide ((g ++ [' ']) <+: t) ||
      decide (([' '] ++ g ++ [' ']) <:+: t) || decide (([' '] ++ g) <:+ t)

/-- Word characters for the regex metacharacter `\b` (`[A-Za-z0-9_]`). -/
def isWordChar (c : Char) : Bool :=
  ('a' ≤ c && c ≤ 'z') || ('A' ≤ c && c ≤ 'Z') || ('0' ≤ c && c ≤ '9') || c = '_'

/-- ASCII letter, the class `[A-Za-z]`. -/
def isAsciiLetter (c : Char) : Bool :=
  ('a' ≤ c && c ≤ 'z') || ('A' ≤ c && c ≤ 'Z')

/-- The character class `[A-Za-z'\- ]` of the name capture group. -/
def isNameClass (c : Char) : Bool :=
  isAsciiLetter c || c = '\'' || c = '-' || c = ' '

/-- The introduction phrases of the name regex (line 359), lowercased. -/
def namePhrases : List Str :=
  [str "my name is", str "i'm", str "i am", str "this is"]

/-- Greedily take up to `n` further characters of the capture class. -/
def takeNameClass : Nat → Str → Str
  | 0, _ => []
  | _, [] => []
  | n + 1, c :: rest => if isNameClass c then c :: takeNameClass n rest else []

/-- Case-insensitively strip phrase `p` (given lowercased) from the front
of `t`, returning the remainder on success. -/
def stripPhraseCI (p t : Str) : Option Str :=
  if lowerStr (t.take p.length) = p && p.length ≤ t.length then
    some (t.drop p.length)
  else none

/-- Attempt the whole regex tail at the current position: one of the
phrases (alternatives in source order), then `\s+`, then the capture
`[A-Za-z][A-Za-z'\- ]{0,40}`. -/
def matchIntroAt (t : Str) : Option Str :=
  namePhrases.findSome? fun p =>
    match stripPhraseCI p t with
    | none => none
    | some rest =>
      let ws := rest.takeWhile isWs
      let rest2 := rest.dropWhile isWs
      if ws = [] then none
      else
        match rest2 with
        | [] => none
        | c :: cs =>
          if isAsciiLetter c then some (c :: takeNameClass 40 cs) else none

/-- Scan for the leftmost match of the name regex (line 358-360).  The
boolean argument records whether the previous character was a word
character, implementing the `\b` boundary (all phrases start with a word
character). -/
def extractNameAux : Str → Bool → Option Str
  | [], _ => none
  | c :: rest, prevWord =>
    if prevWord then extractNameAux rest (isWordChar c)
    else
      match matchIntroAt (c :: rest) with
      | some cap => some cap
      | none => extractNameAux rest (isWordChar c)

/-- Model of the full regex match of line 358-360,
returning the captured group. -/
def extractName (text : Str) : Option Str := extractNameAux text false

/-- Model of the `response.choices[i].message` object: `content` may be absent. -/
structure RespMessage where
  content : Option Str
deriving DecidableEq, Repr

/-- One element of `response.choices`: `message` may be absent. -/
structure RespChoice where
  message : Option RespMessage
deriving DecidableEq, Repr

/-- The JSON value resolved by `sendToApi`: `choices` may be absent, and
an element of the array may be `null` (modelled `Option RespChoice`). -/
structure ApiData where
  choices : Option (List (Option RespChoice))
deriving DecidableEq, Repr

/-- The sentinel text of line 430. -/
def noResponseText : Str := str "(No response from API)"

/-- The conditional of lines 427-430:
`data && data.choices && data.choices[0] && data.choices[0].message ?
 data.choices[0].message.content : "(No response from API)"`.
`none` models an `undefined` result (reached when `message` exists but
`content` is absent). An empty `choices` array is truthy in JavaScript,
but its element 0 is `undefined`, hence falsy. -/
def assistantTextOf (data : Option ApiData) : Option Str :=
  match data with
  | some d =>
    match d.choices with
    | some (some c :: _) =>
      match c.message with
      | some m => m.content
      | none => some noResponseText
    | _ => some noResponseText
  | none => some noResponseText

/-- Transport paths of `sendToApi` (lines 284-336). -/
inductive Transport where
  | relay
  | direct
  | configError
deriving DecidableEq, Repr

/-- Truthiness of an optional string configuration value. -/
def optTruthy (v : Option Str) : Bool :=
  match v with
  | some s => s ≠ []
  | none => false

/-- The transport `sendToApi` selects, as a function of the
`window.OPENAI_API_KEY` configuration (the network call itself is
abstracted away): worker URL first, then the direct provider key, else
the thrown configuration error (lines 286-335). -/
def chooseTransport (apiKey : Option Str) : Transport :=
  if getWorkerUrl ≠ [] then Transport.relay
  else if optTruthy apiKey then Transport.direct
  else Transport.configError

/-- The guard of line 408: `!getWorkerUrl() && !window.OPENAI_API_KEY`. -/
def configGuard (apiKey : Option Str) : Bool :=
  getWorkerUrl = [] && !optTruthy apiKey

/-- Outcome of the awaited `sendToApi(messages)` call: a resolved JSON
value, or a rejection (network failure, non-ok status, or any other
thrown error). -/
inductive RemoteOutcome where
  | success (data : Option ApiData)
  | failure
deriving DecidableEq, Repr

/-- The canned greeting of lines 370-371. -/
def greetText : Str :=
  str "Bonjour! I'm L'Oréal's Smart Product Advisor. How can I help you with L'Oréal products, routines, or recommendations?"

/-- The canned refusal of lines 384-385. -/
def refuseText : Str :=
  str "I'm here to help with L'Oréal products, routines and beauty topics — I can't assist with that. Please ask about skincare, makeup, haircare, or fragrances."

/-- The configuration message of lines 410-411 (abbreviated content is not
needed by any claim; kept verbatim in spirit, first sentence). -/
def cfgMsgText : Str :=
  str "This demo is not configured to talk to the API. For production, set up a Cloudflare Worker and add the worker URL to a gitignored `secrets.local.js` (example: `window.WORKER_URL = 'https://your-worker.example.workers.dev'`).\n\nFor local testing only, you can create `secrets.local.js` with `window.OPENAI_API_KEY = 'sk-...';` (not recommended to commit)."

/-- The apology of line 447. -/
def errMsgText : Str := str "Sorry — something went wrong. Please try again later."

/-- Result of one submit-handler invocation: the final module state,
whether `sendToApi` was invoked, and whether the pending "Thinking..."
placeholder was shown and later removed. -/
structure TurnResult where
  state : ChatState
  apiCalled : Bool
  pendingShown : Bool
  pendingCleared : Bool
deriving DecidableEq, Repr

/-- The `chatForm` submit handler (lines 339-451), as a function of the
module state, the raw input value, the current time (`new Date()`,
reused for every timestamp taken during the turn), the
`window.OPENAI_API_KEY` configuration, and the outcome of the awaited
remote call (used only when the handler reaches `sendToApi`).

Order of effects follows the source: trim-guard; push the user message
and save; extract a name into the `userName` variable; push the raw text
onto `pastQuestions`; then the greeting branch, the unrelated-refusal
branch, the missing-configuration branch, and finally the remote call
with its success and catch paths.  The catch path pushes the apology
without a `time` field and does not save. -/
def processTurn (s : ChatState) (raw : Str) (now : Str) (apiKey : Option Str)
    (outcome : RemoteOutcome) : TurnResult :=
  let text := jsTrim raw
  if text = [] then
    { state := s, apiCalled := false, pendingShown := false, pendingCleared := false }
  else
    let s1 := saveConversation (pushMessage
      { role := some (str "user"), content := some text, time := some now } s)
    let s2 := { s1 with userName :=
      (match extractName text with
       | some cap => some (jsTrim cap)
       | none => s1.userName) }
    let s3 := { s2 with pastQuestions := s2.pastQuestions ++ [text] }
    if isGreeting text then
      { state := saveConversation (pushMessage
          { role := some (str "assistant"), content := some greetText, time := some now } s3)
      , apiCalled := false, pendingShown := false, pendingCleared := false }
    else if !isRelatedQuery text then
      { state := saveConversation (pushMessage
          { role := some (str "assistant"), content := some refuseText, time := some now } s3)
      , apiCalled := false, pendingShown := false, pendingCleared := false }
    else if configGuard apiKey then
      { state := saveConversation (pushMessage
          { role := some (str "assistant"), content := some cfgMsgText, time := some now } s3)
      , apiCalled := false, pendingShown := true, pendingCleared := true }
    else
      match outcome with
      | RemoteOutcome.success data =>
        { state := saveConversation (pushMessage
            { role := some (str "assistant"), content := assistantTextOf data
            , time := some now } s3)
        , apiCalled := true, pendingShown := true, pendingCleared := true }
      | RemoteOutcome.failure =>
        { state := pushMessage
            { role := some (str "assistant"), content := some errMsgText, time := none } s3
        , apiCalled := true, pendingShown := true, pendingCleared := true }

/-- Spec-side notion for C7: greeting word `g` occurs in `t` as a whole
token — at the very start/end of the text or delimited by spaces. -/
def WholeTokenOccurrence (g t : Str) : Prop :=
  ∃ pre post, t = pre ++ g ++ post ∧
    (pre = [] ∨ ∃ p, pre = p ++ [' ']) ∧
    (post = [] ∨ ∃ q, post = ' ' :: q)

/-- Whether the truthiness chain of lines 427-429 reaches
`data.choices[0].message`: data present, choices present, first choice
present and non-null, message present. -/
def messagePresent (data : Option ApiData) : Bool :=
  match data with
  | some d =>
    match d.choices with
    | some (some c :: _) => c.message.isSome
    | _ => false
  | none => false

/-- The user message pushed at line 354. -/
def userMsg (text now : Str) : Message :=
  { role := some (str "user"), content := some text, time := some now }

/-- The apology message pushed in the catch block (line 449), with no
`time` field. -/
def apologyMsg : Message :=
  { role := some (str "assistant"), content := some errMsgText, time := none }

/-- A snapshot entry with neither `role` nor `content`, used to exercise
the restore path on malformed data. -/
def malEntry : Message := { role := none, content := none, time := none }

/-- A well-formed remote response carrying the completion "ok". -/
def okData : ApiData :=
  { choices := some [some { message := some { content := some (str "ok") } }] }

/-- A remote response whose `choices[0].message` exists but has no
`content` field. -/
def contentlessData : ApiData :=
  { choices := some [some { message := some { content := none } }] }

/-- A dirty session state, exercising reset from a non-initial state. -/
def dirtyState : ChatState :=
  { messages := [systemMessage, userMsg (str "ok skincare") (str "t1")]
  , userName := some (str "Bob")
  , pastQuestions := [str "ok skincare"]
  , storage := { loreal_messages := some [userMsg (str "ok skincare") (str "t1")]
               , loreal_pastQuestions := some [str "ok skincare"]
               , loreal_userName := some (str "Bob") } }

theorem head?_append_some {α : Type} {l l' : List α} {a : α}
    (h : l.head? = some a) : (l ++ l').head? = some a := by
  cases l with
  | nil => simp at h
  | cons b t => simpa using h

theorem configGuard_false (k : Option Str) : configGuard k = false := by
  unfold configGuard
  rw [show (decide (getWorkerUrl = []) : Bool) = false from by decide]
  simp

/-- C9: an input that is empty or whitespace-only after trimming is
rejected with no side effects: the whole module state (conversation,
question log, user name, storage) is returned unchanged, no message is
appended, the API is not called and no pending indicator is shown. -/
theorem claim9_empty_input_no_effects (s : ChatState) (raw now : Str)
    (k : Option Str) (oc : RemoteOutcome) (h : jsTrim raw = []) :
    processTurn s raw now k oc =
      { state := s, apiCalled := false, pendingShown := false
      , pendingCleared := false } := by
  simp [processTurn, h]

theorem claim9_empty_input_witness :
    jsTrim (str "   ") = [] ∧
    processTurn initState (str "   ") (str "t") none RemoteOutcome.failure =
      { state := initState, apiCalled := false, pendingShown := false
      , pendingCleared := false } :=
  ⟨rfl, claim9_empty_input_no_effects initState (str "   ") (str "t") none
    RemoteOutcome.failure rfl⟩

/-- C5: after the clear-conversation handler runs, the message store is
exactly the system message, the question log is empty, and the user name
is unset both in memory and in storage, whatever the prior state was (as
long as index 0 held the system message). -/
theorem claim5_reset_exact (s : ChatState)
    (h : s.messages.head? = some systemMessage) :
    (resetSession s).messages = [systemMessage] ∧
    (resetSession s).pastQuestions = [] ∧
    (resetSession s).userName = none ∧
    (resetSession s).storage.loreal_userName = none ∧
    (resetSession s).storage.loreal_messages = none ∧
    (resetSession s).storage.loreal_pastQuestions = none := by
  cases hm : s.messages with
  | nil => rw [hm] at h; simp at h
  | cons a t =>
    rw [hm] at h
    simp only [List.head?_cons, Option.some.injEq] at h
    subst h
    simp [resetSession, setUserName, hm]

theorem claim5_reset_witness :
    dirtyState.messages.head? = some systemMessage ∧
    ((resetSession dirtyState).messages = [systemMessage] ∧
     (resetSession dirtyState).pastQuestions = [] ∧
     (resetSession dirtyState).userName = none ∧
     (resetSession dirtyState).storage.loreal_userName = none ∧
     (resetSession dirtyState).storage.loreal_messages = none ∧
     (resetSession dirtyState).storage.loreal_pastQuestions = none) :=
  ⟨rfl, claim5_reset_exact dirtyState rfl⟩

/-- C10: `getWorkerUrl` is the fixed non-empty relay URL, so `sendToApi`
always selects the relay transport (the direct-provider branch and the
thrown configuration error are unreachable), the submit handler's
configuration guard is always false, and every turn that reaches the
remote-call stage actually invokes `sendToApi`. -/
theorem claim10_relay_always :
    getWorkerUrl = str "https://lorealchatbot.dilyosov.workers.dev/" ∧
    getWorkerUrl ≠ [] ∧
    (∀ k, chooseTransport k = Transport.relay) ∧
    (∀ k, configGuard k = false) ∧
    (∀ s raw now k oc, jsTrim raw ≠ [] → isGreeting (jsTrim raw) = false →
      isRelatedQuery (jsTrim raw) = true →
      (processTurn s raw now k oc).apiCalled = true) := by
  refine ⟨rfl, by decide, fun k => ?_, configGuard_false, ?_⟩
  · unfold chooseTransport
    rw [if_pos (by decide)]
  · intro s raw now k oc h1 h2 h3
    cases oc <;>
      simp [processTurn, h1, h2, h3, configGuard_false]

theorem claim10_relay_witness :
    jsTrim (str "need a serum") ≠ [] ∧
    isGreeting (jsTrim (str "need a serum")) = false ∧
    isRelatedQuery (jsTrim (str "need a serum")) = true ∧
    (processTurn initState (str "need a serum") (str "t") none
      (RemoteOutcome.success (some okData))).apiCalled = true :=
  ⟨by decide, by decide, by decide,
    claim10_relay_always.2.2.2.2 initState (str "need a serum") (str "t") none
      (RemoteOutcome.success (some okData)) (by decide) (by decide) (by decide)⟩

/-- C8: when the trimmed input is a greeting, the turn short-circuits: the
canned greeting is appended as the last assistant message (and persisted),
and `sendToApi` is never invoked — no pending indicator is even shown. -/
theorem claim8_greeting_no_api (s : ChatState) (raw now : Str) (k : Option Str)
    (oc : RemoteOutcome) (h1 : jsTrim raw ≠ [])
    (h2 : isGreeting (jsTrim raw) = true) :
    (processTurn s raw now k oc).apiCalled = false ∧
    (processTurn s raw now k oc).pendingShown = false ∧
    (processTurn s raw now k oc).state.messages.getLast? =
      some { role := some (str "assistant"), content := some greetText
           , time := some now } ∧
    (processTurn s raw now k oc).state.storage.loreal_messages =
      some ((processTurn s raw now k oc).state.messages.drop 1) := by
  simp [processTurn, h1, h2, saveConversation, pushMessage]

theorem claim8_greeting_witness :
    jsTrim (str "Hello") ≠ [] ∧
    isGreeting (jsTrim (str "Hello")) = true ∧
    ((processTurn initState (str "Hello") (str "t") none
        RemoteOutcome.failure).apiCalled = false ∧
     (processTurn initState (str "Hello") (str "t") none
        RemoteOutcome.failure).pendingShown = false ∧
     (processTurn initState (str "Hello") (str "t") none
        RemoteOutcome.failure).state.messages.getLast? =
       some { role := some (str "assistant"), content := some greetText
            , time := some (str "t") } ∧
     (processTurn initState (str "Hello") (str "t") none
        RemoteOutcome.failure).state.storage.loreal_messages =
       some ((processTurn initState (str "Hello") (str "t") none
        RemoteOutcome.failure).state.messages.drop 1)) :=
  ⟨by decide, by decide,
    claim8_greeting_no_api initState (str "Hello") (str "t") none
      RemoteOutcome.failure (by decide) (by decide)⟩

/-- C6: index 0 of `messages` is always the system message — established
by initialisation and preserved by pushes, by `restoreConversation`, by
the clear-conversation handler, and by every submit-handler turn — and
`saveConversation`, the only writer of the `loreal_messages` key, writes
exactly `messages.slice(1)`, excluding the index-0 system message. -/
theorem claim6_system_index_zero :
    (∀ st, (initStateWith st).messages.head? = some systemMessage) ∧
    (∀ s m, s.messages.head? = some systemMessage →
      (pushMessage m s).messages.head? = some systemMessage) ∧
    (∀ s, s.messages.head? = some systemMessage →
      (restoreConversation s).1.messages.head? = some systemMessage) ∧
    (∀ s, s.messages.head? = some systemMessage →
      (resetSession s).messages.head? = some systemMessage) ∧
    (∀ s raw now k oc, s.messages.head? = some systemMessage →
      (processTurn s raw now k oc).state.messages.head? = some systemMessage) ∧
    (∀ s, (saveConversation s).storage.loreal_messages =
      some (s.messages.drop 1)) := by
  refine ⟨fun st => rfl, fun s m h => head?_append_some h, fun s h => ?_,
    fun s h => ?_, fun s raw now k oc h => ?_, fun s => rfl⟩
  · unfold restoreConversation
    cases hm : s.storage.loreal_messages with
    | none => simpa using h
    | some arr =>
      by_cases he : arr = []
      · simp [he, h]
      · simp only [he, if_neg, ite_false]
        exact head?_append_some h
  · unfold resetSession
    cases hl : s.messages with
    | nil => rw [hl] at h; simp at h
    | cons a t =>
      rw [hl] at h
      simp only [List.head?_cons, Option.some.injEq] at h
      subst h
      simp [setUserName, hl]
  · unfold processTurn
    by_cases h0 : jsTrim raw = []
    · simpa [h0] using h
    · by_cases hg : isGreeting (jsTrim raw)
      · simp [h0, hg, saveConversation, pushMessage]
        exact Or.inl h
      · by_cases hr : isRelatedQuery (jsTrim raw)
        · cases oc <;>
          · simp [h0, hg, hr, configGuard_false, saveConversation, pushMessage]
            exact Or.inl h
        · simp [h0, hg, hr, saveConversation, pushMessage]
          exact Or.inl h

theorem claim6_system_index_zero_witness :
    initState.messages.head? = some systemMessage ∧
    (pushMessage apologyMsg initState).messages.head? = some systemMessage ∧
    (resetSession dirtyState).messages.head? = some systemMessage :=
  ⟨rfl, claim6_system_index_zero.2.1 initState apologyMsg rfl,
    claim6_system_index_zero.2.2.2.1 dirtyState rfl⟩

/-- C1 counterexample: on a failed remote call the catch block appends the
apology but performs no persistence write, so the persisted snapshot does
NOT match the final conversation (it lacks the apology).  Concretely:
after the turn, storage holds only the user message while the in-memory
tail also holds the apology. -/
theorem claim1_failure_persists_cex :
    (processTurn initState (str "recommend a shampoo") (str "t") none
        RemoteOutcome.failure).state.storage.loreal_messages =
      some [userMsg (str "recommend a shampoo") (str "t")] ∧
    (processTurn initState (str "recommend a shampoo") (str "t") none
        RemoteOutcome.failure).state.messages.drop 1 =
      [userMsg (str "recommend a shampoo") (str "t"), apologyMsg] ∧
    (processTurn initState (str "recommend a shampoo") (str "t") none
        RemoteOutcome.failure).state.storage.loreal_messages ≠
      some ((processTurn initState (str "recommend a shampoo") (str "t") none
        RemoteOutcome.failure).state.messages.drop 1) := by
  refine ⟨by decide, by decide, ?_⟩
  decide

/-- C1 (amended): on any failure of the remote call the controller clears
the pending indicator, appends the generic apology as an assistant
message (without a timestamp), and the turn ends — but it does NOT
persist: storage keeps the snapshot written right after the user message
was appended, which contains the user message and not the apology. -/
theorem claim1_failure_no_persist (s : ChatState) (raw now : Str)
    (k : Option Str) (h1 : jsTrim raw ≠ [])
    (h2 : isGreeting (jsTrim raw) = false)
    (h3 : isRelatedQuery (jsTrim raw) = true) :
    (processTurn s raw now k RemoteOutcome.failure).pendingShown = true ∧
    (processTurn s raw now k RemoteOutcome.failure).pendingCleared = true ∧
    (processTurn s raw now k RemoteOutcome.failure).apiCalled = true ∧
    (processTurn s raw now k RemoteOutcome.failure).state.messages =
      s.messages ++ [userMsg (jsTrim raw) now, apologyMsg] ∧
    (processTurn s raw now k RemoteOutcome.failure).state.storage =
      (saveConversation (pushMessage (userMsg (jsTrim raw) now) s)).storage := by
  simp [processTurn, h1, h2, h3, configGuard_false, saveConversation,
    pushMessage, userMsg, apologyMsg]

theorem claim1_failure_no_persist_witness :
    jsTrim (str "which cleanser?") ≠ [] ∧
    isGreeting (jsTrim (str "which cleanser?")) = false ∧
    isRelatedQuery (jsTrim (str "which cleanser?")) = true ∧
    ((processTurn initState (str "which cleanser?") (str "t") none
        RemoteOutcome.failure).pendingShown = true ∧
     (processTurn initState (str "which cleanser?") (str "t") none
        RemoteOutcome.failure).pendingCleared = true ∧
     (processTurn initState (str "which cleanser?") (str "t") none
        RemoteOutcome.failure).apiCalled = true ∧
     (processTurn initState (str "which cleanser?") (str "t") none
        RemoteOutcome.failure).state.messages =
       initState.messages ++ [userMsg (jsTrim (str "which cleanser?")) (str "t"), apologyMsg] ∧
     (processTurn initState (str "which cleanser?") (str "t") none
        RemoteOutcome.failure).state.storage =
       (saveConversation (pushMessage (userMsg (jsTrim (str "which cleanser?")) (str "t"))
         initState)).storage) :=
  ⟨by decide, by decide, by decide,
    claim1_failure_no_persist initState (str "which cleanser?") (str "t") none
      (by decide) (by decide) (by decide)⟩

/-- C2 counterexample: `restoreConversation` performs no validation.  A
persisted snapshot holding one entry with neither `role` nor `content`
is restored in full, and a subsequent `saveConversation` persists that
malformed entry again instead of the empty sequence the claim predicts. -/
theorem claim2_restore_skips_cex :
    (saveConversation (restoreConversation
        (initStateWith { emptyStorage with
          loreal_messages := some [malEntry] })).1).storage.loreal_messages =
      some [malEntry] ∧
    some [malEntry] ≠ some ([] : List Message) := by
  exact ⟨rfl, by decide⟩

/-- C2 (amended): `restoreConversation` does not validate entries: every
entry of a non-empty persisted snapshot — malformed or not — is appended
after the existing messages, with `role` and `content` copied unchecked
and a falsy `time` normalised to `null`; a following snapshot therefore
returns the original sequence with every entry retained (modulo that
time normalisation), not with malformed entries removed. -/
theorem claim2_restore_no_validation (s : ChatState) (arr : List Message)
    (hm : s.storage.loreal_messages = some arr) (hne : arr ≠ []) :
    (restoreConversation s).2 = true ∧
    (restoreConversation s).1.messages = s.messages ++ arr.map restoreEntry ∧
    (saveConversation (restoreConversation s).1).storage.loreal_messages =
      some ((s.messages ++ arr.map restoreEntry).drop 1) := by
  refine ⟨?_, ?_, ?_⟩ <;> simp [restoreConversation, hm, hne, saveConversation]

theorem claim2_restore_no_validation_witness :
    dirtyState.storage.loreal_messages =
      some [userMsg (str "ok skincare") (str "t1")] ∧
    [userMsg (str "ok skincare") (str "t1")] ≠ ([] : List Message) ∧
    ((restoreConversation dirtyState).2 = true ∧
     (restoreConversation dirtyState).1.messages =
       dirtyState.messages ++ [userMsg (str "ok skincare") (str "t1")].map restoreEntry ∧
     (saveConversation (restoreConversation dirtyState).1).storage.loreal_messages =
       some ((dirtyState.messages ++
         [userMsg (str "ok skincare") (str "t1")].map restoreEntry).drop 1)) :=
  ⟨rfl, by decide,
    claim2_restore_no_validation dirtyState [userMsg (str "ok skincare") (str "t1")]
      rfl (by decide)⟩

/-- C3 counterexample: the input "My name is Alex, suggest a shampoo"
makes the name regex capture "Alex" and the turn stores it in the
`userName` variable, but the persisted `loreal_userName` key is left
untouched (here: absent), so the persisted key does not reflect the
extracted name after the turn. -/
theorem claim3_name_persist_cex :
    (processTurn initState (str "My name is Alex, suggest a shampoo") (str "t")
        none (RemoteOutcome.success (some okData))).state.userName =
      some (str "Alex") ∧
    (processTurn initState (str "My name is Alex, suggest a shampoo") (str "t")
        none (RemoteOutcome.success (some okData))).state.storage.loreal_userName =
      none ∧
    (processTurn initState (str "My name is Alex, suggest a shampoo") (str "t")
        none (RemoteOutcome.success (some okData))).state.storage.loreal_userName ≠
      some (str "Alex") := by
  refine ⟨by decide, by decide, ?_⟩
  decide

/-- C3 (amended): whenever the name regex finds a self-introduction in
the trimmed input, the turn updates the in-memory `userName` variable to
the trimmed capture, but it does not persist it: the `loreal_userName`
storage key is unchanged by the whole turn (the submit handler never
calls `setUserName`). -/
theorem claim3_name_not_persisted (s : ChatState) (raw now : Str)
    (k : Option Str) (oc : RemoteOutcome) (cap : Str)
    (h1 : jsTrim raw ≠ []) (h2 : extractName (jsTrim raw) = some cap) :
    (processTurn s raw now k oc).state.userName = some (jsTrim cap) ∧
    (processTurn s raw now k oc).state.storage.loreal_userName =
      s.storage.loreal_userName := by
  by_cases hg : isGreeting (jsTrim raw)
  · constructor <;>
      simp [processTurn, h1, h2, hg, saveConversation, pushMessage]
  · by_cases hr : isRelatedQuery (jsTrim raw)
    · cases oc <;> constructor <;>
        simp [processTurn, h1, h2, hg, hr, configGuard_false,
          saveConversation, pushMessage]
    · constructor <;>
        simp [processTurn, h1, h2, hg, hr, saveConversation, pushMessage]

theorem claim3_name_not_persisted_witness :
    jsTrim (str "i am Maya, which mascara?") ≠ [] ∧
    extractName (jsTrim (str "i am Maya, which mascara?")) = some (str "Maya") ∧
    ((processTurn dirtyState (str "i am Maya, which mascara?") (str "t") none
        RemoteOutcome.failure).state.userName = some (jsTrim (str "Maya")) ∧
     (processTurn dirtyState (str "i am Maya, which mascara?") (str "t") none
        RemoteOutcome.failure).state.storage.loreal_userName =
       dirtyState.storage.loreal_userName) :=
  ⟨by decide, by decide,
    claim3_name_not_persisted dirtyState (str "i am Maya, which mascara?")
      (str "t") none RemoteOutcome.failure (str "Maya") (by decide) (by decide)⟩

/-- C4 counterexample: for the response shape `{choices:[{message:{}}]}` —
`message` present but `content` absent — the appended assistant message
carries the absent content (`undefined`), not the sentinel string, so the
claim fails for this shape of the response object. -/
theorem claim4_sentinel_cex :
    assistantTextOf (some contentlessData) = none ∧
    (processTurn initState (str "recommend a moisturizer") (str "t") none
        (RemoteOutcome.success (some contentlessData))).state.messages.getLast? =
      some { role := some (str "assistant"), content := none, time := some (str "t") } ∧
    ((processTurn initState (str "recommend a moisturizer") (str "t") none
        (RemoteOutcome.success (some contentlessData))).state.messages.getLast?.map
          Message.content) ≠ some (some noResponseText) := by
  refine ⟨rfl, by decide, ?_⟩
  decide

/-- C4 (amended): the sentinel "(No response from API)" is substituted
exactly when the truthiness chain `data && data.choices &&
data.choices[0] && data.choices[0].message` fails; when the `message`
object is present, its `content` is passed through even when absent
(yielding an assistant message with `undefined` content, not the
sentinel).  In every success turn the appended assistant message carries
`assistantTextOf data`. -/
theorem claim4_sentinel_when_message_missing :
    (∀ data : Option ApiData, messagePresent data = false →
      assistantTextOf data = some noResponseText) ∧
    (∀ (m : RespMessage) (rest : List (Option RespChoice)),
      assistantTextOf (some { choices := some (some { message := some m } :: rest) }) =
        m.content) ∧
    (∀ s raw now k data, jsTrim raw ≠ [] → isGreeting (jsTrim raw) = false →
      isRelatedQuery (jsTrim raw) = true →
      (processTurn s raw now k (RemoteOutcome.success data)).state.messages.getLast? =
        some { role := some (str "assistant"), content := assistantTextOf data
             , time := some now }) := by
  refine ⟨?_, ?_, ?_⟩
  · intro data h
    match data with
    | none => rfl
    | some { choices := none } => rfl
    | some { choices := some [] } => rfl
    | some { choices := some (none :: _) } => rfl
    | some { choices := some (some { message := none } :: _) } => rfl
    | some { choices := some (some { message := some m } :: _) } =>
      simp [messagePresent] at h
  · intro m rest
    rfl
  · intro s raw now k data h1 h2 h3
    simp [processTurn, h1, h2, h3, configGuard_false, saveConversation,
      pushMessage]

theorem claim4_sentinel_witness :
    messagePresent (some (ApiData.mk (some []))) = false ∧
    assistantTextOf (some (ApiData.mk (some []))) = some noResponseText ∧
    jsTrim (str "need a toner") ≠ [] ∧
    isGreeting (jsTrim (str "need a toner")) = false ∧
    isRelatedQuery (jsTrim (str "need a toner")) = true ∧
    (processTurn initState (str "need a toner") (str "t") none
        (RemoteOutcome.success (some (ApiData.mk (some []))))).state.messages.getLast? =
      some { role := some (str "assistant")
           , content := assistantTextOf (some (ApiData.mk (some [])))
           , time := some (str "t") } :=
  ⟨rfl, claim4_sentinel_when_message_missing.1 (some (ApiData.mk (some []))) rfl,
    by decide, by decide, by decide,
    claim4_sentinel_when_message_missing.2.2 initState (str "need a toner")
      (str "t") none (some (ApiData.mk (some []))) (by decide) (by decide)
      (by decide)⟩

theorem wholeToken_iff (g t : Str) :
    (((t = g ∨ (g ++ [' ']) <+: t) ∨ ([' '] ++ g ++ [' ']) <:+: t) ∨
      ([' '] ++ g) <:+ t) ↔ WholeTokenOccurrence g t := by
  constructor
  · rintro (((rfl | ⟨rest, hr⟩) | ⟨sL, sR, hi⟩) | ⟨sL, hs⟩)
    · exact ⟨[], [], by simp, Or.inl rfl, Or.inl rfl⟩
    · exact ⟨[], ' ' :: rest, by rw [← hr]; simp, Or.inl rfl, Or.inr ⟨rest, rfl⟩⟩
    · exact ⟨sL ++ [' '], ' ' :: sR, by rw [← hi]; simp, Or.inr ⟨sL, rfl⟩,
        Or.inr ⟨sR, rfl⟩⟩
    · exact ⟨sL ++ [' '], [], by rw [← hs]; simp, Or.inr ⟨sL, rfl⟩, Or.inl rfl⟩
  · rintro ⟨pre, post, rfl, (rfl | ⟨p, rfl⟩), (rfl | ⟨q, rfl⟩)⟩
    · exact Or.inl (Or.inl (Or.inl (by simp)))
    · exact Or.inl (Or.inl (Or.inr ⟨q, by simp⟩))
    · exact Or.inr ⟨p, by simp⟩
    · exact Or.inl (Or.inr ⟨p, q, by simp⟩)

/-- C7: `isGreeting` returns true exactly when some word of the greeting
lexicon occurs in the lowercased text as a whole token — the text itself,
a leading token followed by a space, an interior token with spaces on
both sides, or a trailing token preceded by a space.  In particular a
lexicon word occurring only inside another word (no space boundary)
never makes it true, and the empty text yields false. -/
theorem claim7_greeting_iff_token :
    (∀ text : Str, isGreeting text = true ↔
      ∃ g ∈ greetings, WholeTokenOccurrence g (lowerStr text)) ∧
    isGreeting [] = false := by
  refine ⟨fun text => ?_, rfl⟩
  by_cases h : text = []
  · subst h
    constructor
    · intro hf
      exact absurd hf (by decide)
    · rintro ⟨g, hg, pre, post, he, _, _⟩
      have h2 : pre ++ g ++ post = [] := by simpa [lowerStr] using he.symm
      rcases List.append_eq_nil.mp h2 with ⟨h3, -⟩
      rcases List.append_eq_nil.mp h3 with ⟨-, h4⟩
      subst h4
      exact absurd hg (by decide)
  · unfold isGreeting
    rw [if_neg h]
    simp only [List.any_eq_true, Bool.or_eq_true, decide_eq_true_eq]
    exact exists_congr fun g => and_congr_right fun _ =>
      wholeToken_iff g (lowerStr text)
